import Mathlib

/-!
Shallow embedding of the snek game core (src/main.rs): the Cell / Player /
Food / State data model and the tick-driven update, with the rendering and
input surface abstracted away (keys become an `Option Key` input per tick,
the random number generator becomes an abstract stream of draws).
-/

set_option linter.unusedVariables false

/-- Board width, `SCREEN_WIDTH` in the source (48). -/
def SCREEN_WIDTH : Int := 48

/-- Board height, `SCREEN_HEIGHT` in the source (48). -/
def SCREEN_HEIGHT : Int := 48

/-- Movement direction; `Static` only before the first key press. -/
inductive Dir where
  | Static
  | Left
  | Right
  | Up
  | Down
deriving DecidableEq

/-- A 2D integer board coordinate. -/
structure Cell where
  x : Int
  y : Int
deriving DecidableEq

/-- Embeds `Cell::new`. -/
def Cell.new (x y : Int) : Cell := { x := x, y := y }

/-- Embeds `Cell::right`: note the source decrements x for "right". -/
def Cell.right (curr : Cell) : Cell := Cell.new (curr.x - 1) curr.y

/-- Embeds `Cell::left`: note the source increments x for "left". -/
def Cell.left (curr : Cell) : Cell := Cell.new (curr.x + 1) curr.y

/-- Embeds `Cell::up`: decrements y. -/
def Cell.up (curr : Cell) : Cell := Cell.new curr.x (curr.y - 1)

/-- Embeds `Cell::down`: increments y. -/
def Cell.down (curr : Cell) : Cell := Cell.new curr.x (curr.y + 1)

/-- The directional offset each `Dir` applies, exactly the `match self.dir`
arms shared by `update_position` and `grow`; `Static` moves nothing. -/
def Dir.apply : Dir → Cell → Cell
  | Dir.Left, c => Cell.left c
  | Dir.Right, c => Cell.right c
  | Dir.Up, c => Cell.up c
  | Dir.Down, c => Cell.down c
  | Dir.Static, c => c

/-- The player: head cell, tail segments (a `VecDeque<Cell>`, front first),
and current direction. -/
structure Player where
  head : Cell
  tail : List Cell
  dir : Dir
deriving DecidableEq

/-- Embeds `Player::new`. -/
def Player.new (x y : Int) : Player :=
  { head := Cell.new x y, tail := [], dir := Dir.Static }

/-- Key codes the game inspects (`VirtualKeyCode` arms used by the source);
`Other` stands for every unrecognized key. -/
inductive Key where
  | D
  | A
  | W
  | S
  | P
  | Q
  | Other
deriving DecidableEq

/-- Embeds `Player::update_direction`: maps D/A/W/S to a direction (note the
swapped naming: D sets `Left`, A sets `Right`); other keys and no key are
no-ops. -/
def Player.update_direction (p : Player) (key : Option Key) : Player :=
  match key with
  | some Key.D => { p with dir := Dir.Left }
  | some Key.A => { p with dir := Dir.Right }
  | some Key.W => { p with dir := Dir.Up }
  | some Key.S => { p with dir := Dir.Down }
  | _ => p

/-- Embeds `VecDeque::rotate_left(1)`: the front element moves to the back. -/
def rotate_left1 {α : Type} : List α → List α
  | [] => []
  | a :: l => l ++ [a]

/-- Embeds `Player::update_position`: when the tail has more than one segment,
rotate it left by one, push the old head at the front and pop the back;
then step the head by the current direction. -/
def Player.update_position (p : Player) : Player :=
  let p :=
    if p.tail.length > 1 then
      { p with tail := (p.head :: rotate_left1 p.tail).dropLast }
    else p
  match p.dir with
  | Dir.Left => { p with head := Cell.left p.head }
  | Dir.Right => { p with head := Cell.right p.head }
  | Dir.Up => { p with head := Cell.up p.head }
  | Dir.Down => { p with head := Cell.down p.head }
  | Dir.Static => p

/-- Embeds `Player::is_out_of_bounds`: the head coordinates, offset by one, must
stay inside `(0, SCREEN_*)` exclusive. -/
def Player.is_out_of_bounds (p : Player) : Bool :=
  decide (p.head.x + 1 ≤ 0)
    || decide (p.head.x + 1 ≥ SCREEN_WIDTH)
    || decide (p.head.y + 1 ≤ 0)
    || decide (p.head.y + 1 ≥ SCREEN_HEIGHT)

/-- Embeds `Player::grow`: push one cell at the back of the tail, one directional
step from the last tail cell (or from the head when the tail is empty);
`Static` pushes nothing. -/
def Player.grow (p : Player) : Player :=
  let last_cell := if p.tail.length > 0 then p.tail.getLastD p.head else p.head
  match p.dir with
  | Dir.Left => { p with tail := p.tail ++ [Cell.left last_cell] }
  | Dir.Right => { p with tail := p.tail ++ [Cell.right last_cell] }
  | Dir.Up => { p with tail := p.tail ++ [Cell.up last_cell] }
  | Dir.Down => { p with tail := p.tail ++ [Cell.down last_cell] }
  | Dir.Static => p

/-- Model of bracket_lib's `RandomNumberGenerator`: an abstract stream of
raw draws plus a cursor; `range lo hi` (library contract: a value in
`[lo, hi)`) is modelled as `lo + draw % (hi - lo)` and advances the
cursor. -/
structure Rng where
  seq : Nat → Nat
  idx : Nat

/-- Embeds `RandomNumberGenerator::range(lo, hi)`: one draw in `[lo, hi)` and the
advanced generator. -/
def Rng.range (r : Rng) (lo hi : Int) : Int × Rng :=
  (lo + (r.seq r.idx : Int) % (hi - lo), { r with idx := r.idx + 1 })

/-- The food: a position and the generator bound at construction. -/
structure Food where
  pos : Cell
  pos_gen : Rng

/-- Embeds `Food::new`: seeds a position in `[0,12)×[0,12)` from a fresh
generator (the fresh generator is an explicit argument here, since
`RandomNumberGenerator::new()` draws entropy from the environment). -/
def Food.new (rng_new : Rng) : Food :=
  let xr := rng_new.range 0 12
  let yr := xr.2.range 0 12
  { pos := Cell.new xr.1 yr.1, pos_gen := yr.2 }

/-- Embeds `Food::respawn`: draws a new position in `[0,12)×[0,12)` from the
generator bound at construction. -/
def Food.respawn (f : Food) : Food :=
  let xr := f.pos_gen.range 0 12
  let yr := xr.2.range 0 12
  { f with pos := Cell.new xr.1 yr.1, pos_gen := yr.2 }

/-- The game mode. -/
inductive GameMode where
  | Playing
  | Dead
deriving DecidableEq

/-- The whole game state (`struct State`). -/
structure State where
  mode : GameMode
  player : Player
  ticks : Nat
  food : Food
  score : Int

/-- Embeds `State::new`: Playing, player at (2,2), tick 0, fresh food, score 0. -/
def State.new (rng : Rng) : State :=
  { mode := GameMode.Playing
    player := Player.new 2 2
    ticks := 0
    food := Food.new rng
    score := 0 }

/-- Embeds `State::restart`: player back at (20,20), tick counter 0, fresh food,
score 0 (the mode is set by the caller, `State::dead`). -/
def State.restart (s : State) (fresh : Rng) : State :=
  { s with
    player := Player.new 20 20
    ticks := 0
    food := Food.new fresh
    score := 0 }

/-- Embeds `State::play`, the Playing-mode tick body with rendering stripped:
update direction from the key, move every fifth tick, die when out of
bounds, grow and respawn the food when the head sits on it. -/
def State.play (s : State) (key : Option Key) : State :=
  let s := { s with player := s.player.update_direction key }
  let s :=
    if s.ticks % 5 = 0 then { s with player := s.player.update_position }
    else s
  let s :=
    if s.player.is_out_of_bounds then { s with mode := GameMode.Dead }
    else s
  if s.player.head = s.food.pos then
    { s with player := s.player.grow, food := s.food.respawn }
  else s

/-- Embeds `State::dead`, the Dead-mode tick body with rendering stripped: P sets
the mode to Playing and restarts (with a fresh generator for the new food);
Q only flags the host loop to quit, which leaves the state unchanged; any
other key is a no-op. -/
def State.dead (s : State) (key : Option Key) (fresh : Rng) : State :=
  match key with
  | some Key.P => State.restart { s with mode := GameMode.Playing } fresh
  | _ => s

/-- Embeds `State::tick` (the `GameState` impl): dispatch on the mode, then
increment the tick counter unconditionally. -/
def State.tick (s : State) (key : Option Key) (fresh : Rng) : State :=
  let s :=
    match s.mode with
    | GameMode.Playing => s.play key
    | GameMode.Dead => s.dead key fresh
  { s with ticks := s.ticks + 1 }

/-- The states reachable from `State::new` by any sequence of ticks, with
arbitrary key input and arbitrary environment entropy each tick. -/
inductive Reachable : State → Prop where
  | new : ∀ rng, Reachable (State.new rng)
  | tick : ∀ s key fresh, Reachable s → Reachable (State.tick s key fresh)

/-! Concrete inputs used by witnesses and counterexamples. -/

/-- A concrete entropy stream: draws alternate 3, 2, 3, 2, …, so every food
spawn and respawn lands on cell (3,2). -/
def rng0 : Rng := { seq := fun i => if i % 2 = 0 then 3 else 2, idx := 0 }

/-- A concrete all-zero entropy stream. -/
def rngF : Rng := { seq := fun _ => 0, idx := 0 }

/-- The state after one tick from `State.new rng0` with the D key pressed:
the head steps from (2,2) onto the food at (3,2), the snake grows one
segment and the food respawns, again at (3,2). -/
def s1 : State := State.tick (State.new rng0) (some Key.D) rngF

/-! Helper lemmas shared by the claim proofs. -/

/-- Lemma: `update_direction` only writes the direction: the head is unchanged. -/
theorem Player.update_direction_head (p : Player) (key : Option Key) :
    (p.update_direction key).head = p.head := by
  obtain ⟨head, tail, dir⟩ := p
  cases key with
  | none => rfl
  | some k => cases k <;> rfl

/-- Lemma: `update_direction` only writes the direction: the tail is unchanged. -/
theorem Player.update_direction_tail (p : Player) (key : Option Key) :
    (p.update_direction key).tail = p.tail := by
  obtain ⟨head, tail, dir⟩ := p
  cases key with
  | none => rfl
  | some k => cases k <;> rfl

/-- Lemma: `grow` only pushes on the tail: the head is unchanged. -/
theorem Player.grow_head (p : Player) : p.grow.head = p.head := by
  obtain ⟨head, tail, dir⟩ := p
  cases dir <;> rfl

/-- Dropping the last element after appending one recovers the list. -/
theorem dropLast_append_single {α : Type} (l : List α) (a : α) :
    (l ++ [a]).dropLast = l := by
  simp

/-! Claim C1 (refinement of the tail update). -/

/-- Modelled from the spec's words (section 9): the tail update as an
explicit ordered-sequence operation, push the old head at the front and
drop the oldest (back) segment. -/
def specPushFrontDropOldest (head : Cell) (tail : List Cell) : List Cell :=
  (head :: tail).dropLast

/-- A concrete player with a two-segment tail of distinct cells. -/
def pC1 : Player :=
  { head := Cell.new 5 5, tail := [Cell.new 0 0, Cell.new 1 0], dir := Dir.Static }

/-- Claim C1 fails: on the tail [(0,0), (1,0)] with head (5,5), the code's
rotate-left/push_front/pop_back produces [(5,5), (1,0)], while pushing the
head and dropping the back segment would produce [(5,5), (0,0)]; the two
operations differ. -/
theorem spec_c1_counterexample :
    pC1.tail.length > 1 ∧
      pC1.update_position.tail ≠ specPushFrontDropOldest pC1.head pC1.tail := by
  decide

/-- Claim C1 (amended): for a tail with more than one segment,
`update_position` pushes the old head at the front and drops the old
FRONT (most recently pushed) segment, keeping the back one: the new tail
is `head :: tail.tail`, not `(head :: tail).dropLast`. -/
theorem spec_c1_amended (p : Player) (h : p.tail.length > 1) :
    p.update_position.tail = p.head :: p.tail.tail := by
  obtain ⟨head, tail, dir⟩ := p
  match tail, h with
  | t0 :: t1 :: rest, _ =>
    have hr : (head :: rotate_left1 (t0 :: t1 :: rest)).dropLast
        = head :: t1 :: rest := by
      show ((head :: t1 :: rest) ++ [t0]).dropLast = head :: t1 :: rest
      exact dropLast_append_single _ _
    cases dir <;> simp [Player.update_position, hr]

/-- Concrete instance of the amended claim C1 at `pC1`. -/
theorem spec_c1_witness :
    pC1.tail.length > 1 ∧ pC1.update_position.tail = pC1.head :: pC1.tail.tail :=
  ⟨by decide, spec_c1_amended pC1 (by decide)⟩

/-! Claim C2 (tail length equals score). -/

/-- Claim C2 fails on the code: `s1` is reachable from the initial state
(one tick, D pressed, food spawned at (3,2)), has one tail segment after
eating the food, yet `score` is still 0 — the code never increments
`score` anywhere, so tail length and score diverge as soon as any food is
eaten. -/
theorem spec_c2_bug :
    Reachable s1 ∧ s1.player.tail.length = 1 ∧ s1.score = 0 ∧
      (s1.player.tail.length : Int) ≠ s1.score := by
  refine ⟨Reachable.tick _ _ _ (Reachable.new rng0), ?_, ?_, ?_⟩ <;> decide

/-! Claim C3 (boundary check). -/

/-- Claim C3: with board dimension 48, `is_out_of_bounds` holds exactly
when the head leaves [0,46]×[0,46]; so x = -1 and x = 47 are out of
bounds, x in 0..46 (with y in range) is in bounds, and symmetrically for
y — the playable region is one cell narrower than the raw board. -/
theorem spec_c3 (p : Player) :
    p.is_out_of_bounds = true ↔
      ¬(0 ≤ p.head.x ∧ p.head.x ≤ 46 ∧ 0 ≤ p.head.y ∧ p.head.y ≤ 46) := by
  unfold Player.is_out_of_bounds SCREEN_WIDTH SCREEN_HEIGHT
  simp only [Bool.or_eq_true, decide_eq_true_eq]
  omega

/-! Claim C9 (directional helpers and their inverses). -/

/-- Claim C9: the four directional helpers compute left → (x+1,y),
right → (x-1,y), up → (x,y-1), down → (x,y+1) (the source's swapped
left/right naming), and each followed by its opposite returns the original
cell. -/
theorem spec_c9 (c : Cell) :
    Cell.right (Cell.left c) = c ∧ Cell.left (Cell.right c) = c ∧
      Cell.down (Cell.up c) = c ∧ Cell.up (Cell.down c) = c ∧
      Cell.left c = Cell.new (c.x + 1) c.y ∧
      Cell.right c = Cell.new (c.x - 1) c.y ∧
      Cell.up c = Cell.new c.x (c.y - 1) ∧
      Cell.down c = Cell.new c.x (c.y + 1) := by
  obtain ⟨x, y⟩ := c
  simp [Cell.left, Cell.right, Cell.up, Cell.down, Cell.new]

/-! Claim C8 (grow). -/

/-- Claim C8: `grow` with a Static direction is a no-op, and otherwise
appends exactly one segment, one directional step from the last tail
segment (or from the head when the tail is empty), leaving head and
direction unchanged. -/
theorem spec_c8 (p : Player) :
    p.grow =
      match p.dir with
      | Dir.Static => p
      | d => { p with tail := p.tail ++ [Dir.apply d (p.tail.getLastD p.head)] } := by
  obtain ⟨head, tail, dir⟩ := p
  cases dir <;> cases tail <;>
    simp [Player.grow, Dir.apply, List.getLastD]

/-! Claim C10 (grow places the new segment in front of the head). -/

/-- Claim C10: with an empty tail and a non-Static direction, the segment
`grow` appends is exactly the cell the head would move to on the next
`update_position` call — in front of the head, not behind it. -/
theorem spec_c10 (p : Player) (h1 : p.tail = []) (h2 : p.dir ≠ Dir.Static) :
    p.grow.tail = [p.update_position.head] := by
  obtain ⟨head, tail, dir⟩ := p
  simp only at h1
  subst h1
  cases dir <;>
    simp [Player.grow, Player.update_position, rotate_left1] at h2 ⊢

/-- A concrete player for claim C10: head (2,2), empty tail, moving
"right" (x-1). -/
def p10 : Player := { head := Cell.new 2 2, tail := [], dir := Dir.Right }

/-- Concrete instance of claim C10 at `p10`. -/
theorem spec_c10_witness :
    p10.tail = [] ∧ p10.dir ≠ Dir.Static ∧
      p10.grow.tail = [p10.update_position.head] :=
  ⟨rfl, by decide, spec_c10 p10 rfl (by decide)⟩

/-! Claim C4 (movement gating). -/

/-- Claim C4 fails: `s1` is a reachable Playing state with tick counter 1
(not a multiple of 5), yet ticking it changes the tail — the head sits on
the respawned food, so `grow` fires on a non-gated tick. -/
theorem spec_c4_counterexample :
    Reachable s1 ∧ s1.mode = GameMode.Playing ∧ s1.ticks % 5 ≠ 0 ∧
      (s1.tick none rngF).player.tail ≠ s1.player.tail := by
  refine ⟨Reachable.tick _ _ _ (Reachable.new rng0), ?_, ?_, ?_⟩ <;> decide

/-- Claim C4 (amended): on a Playing tick whose counter is not a multiple
of 5, the HEAD never moves (the tail may still change, via `grow`, when
the head sits on the food). -/
theorem spec_c4_amended (s : State) (key : Option Key) (fresh : Rng)
    (hm : s.mode = GameMode.Playing) (ht : s.ticks % 5 ≠ 0) :
    (s.tick key fresh).player.head = s.player.head := by
  obtain ⟨mode, player, ticks, food, score⟩ := s
  dsimp only at hm ht ⊢
  subst hm
  unfold State.tick State.play
  dsimp only
  simp only [ht, if_false]
  split <;> split <;>
    simp [Player.grow_head, Player.update_direction_head]

/-- Concrete instance of the amended claim C4 at `s1`. -/
theorem spec_c4_witness :
    s1.mode = GameMode.Playing ∧ s1.ticks % 5 ≠ 0 ∧
      (s1.tick none rngF).player.head = s1.player.head :=
  ⟨by decide, by decide, spec_c4_amended s1 none rngF (by decide) (by decide)⟩

/-! Claim C5 (Playing → Dead transition). -/

/-- Claim C5: a Playing tick ends in mode Dead exactly when the
post-movement player (direction updated, position advanced only on a
gated tick) is out of bounds, and in mode Playing otherwise. -/
theorem spec_c5 (s : State) (key : Option Key) (fresh : Rng)
    (hm : s.mode = GameMode.Playing) :
    (s.tick key fresh).mode =
      if (if s.ticks % 5 = 0
            then (s.player.update_direction key).update_position
            else s.player.update_direction key).is_out_of_bounds
        then GameMode.Dead else GameMode.Playing := by
  obtain ⟨mode, player, ticks, food, score⟩ := s
  dsimp only at hm ⊢
  subst hm
  unfold State.tick State.play
  dsimp only
  split <;> split <;> split <;> simp_all

/-- Concrete instance of claim C5: from the initial state (head (2,2), in
bounds) one tick stays in Playing mode. -/
theorem spec_c5_witness : ((State.new rng0).tick none rngF).mode = GameMode.Playing := by
  have h := spec_c5 (State.new rng0) none rngF rfl
  rw [h]
  decide

/-! Claim C6 (restart from Dead). -/

/-- A concrete Dead state with nonzero tick counter and score. -/
def dead0 : State :=
  { mode := GameMode.Dead, player := Player.new 2 2, ticks := 7,
    food := Food.new rngF, score := 5 }

/-- Claim C6: from Dead, the P key resets the score to 0, the tick counter
to 0, the mode to Playing, and replaces player and food with fresh initial
values (player at (20,20), food from a fresh generator). The enclosing
`tick` then increments the counter, as it does on every tick. -/
theorem spec_c6 (s : State) (fresh : Rng) (h : s.mode = GameMode.Dead) :
    s.dead (some Key.P) fresh =
      { mode := GameMode.Playing, player := Player.new 20 20, ticks := 0,
        food := Food.new fresh, score := 0 } := rfl

/-- Concrete instance of claim C6 at `dead0`. -/
theorem spec_c6_witness :
    dead0.dead (some Key.P) rngF =
      { mode := GameMode.Playing, player := Player.new 20 20, ticks := 0,
        food := Food.new rngF, score := 0 } :=
  spec_c6 dead0 rngF rfl

/-! Claim C7 (food stays in the spawn sub-region). -/

/-- A draw of `range 0 12` lies in `[0, 12)`. -/
theorem Rng.range_mem (r : Rng) : 0 ≤ (r.range 0 12).1 ∧ (r.range 0 12).1 < 12 := by
  unfold Rng.range
  constructor
  · simp only [zero_add]
    have h12 : (12 : Int) - 0 = 12 := by norm_num
    rw [h12]
    exact Int.emod_nonneg _ (by norm_num)
  · simp only [zero_add]
    have h12 : (12 : Int) - 0 = 12 := by norm_num
    rw [h12]
    exact Int.emod_lt_of_pos _ (by norm_num)

/-- A fresh food's position lies in `[0,12)×[0,12)`. -/
theorem Food.new_mem (rng : Rng) :
    0 ≤ (Food.new rng).pos.x ∧ (Food.new rng).pos.x < 12 ∧
      0 ≤ (Food.new rng).pos.y ∧ (Food.new rng).pos.y < 12 :=
  ⟨(Rng.range_mem _).1, (Rng.range_mem _).2, (Rng.range_mem _).1, (Rng.range_mem _).2⟩

/-- A respawned food's position lies in `[0,12)×[0,12)`. -/
theorem Food.respawn_mem (f : Food) :
    0 ≤ f.respawn.pos.x ∧ f.respawn.pos.x < 12 ∧
      0 ≤ f.respawn.pos.y ∧ f.respawn.pos.y < 12 :=
  ⟨(Rng.range_mem _).1, (Rng.range_mem _).2, (Rng.range_mem _).1, (Rng.range_mem _).2⟩

/-- A Playing tick leaves the food unchanged or respawns it. -/
theorem State.play_food (s : State) (key : Option Key) :
    (s.play key).food = s.food ∨ (s.play key).food = s.food.respawn := by
  unfold State.play
  dsimp only
  split <;> split <;> split <;> simp

/-- Claim C7: in every reachable state the food's position lies in the
sub-region `[0,12)×[0,12)` of the board — construction places it there and
every respawn or restart keeps it there. -/
theorem spec_c7 (s : State) (h : Reachable s) :
    0 ≤ s.food.pos.x ∧ s.food.pos.x < 12 ∧
      0 ≤ s.food.pos.y ∧ s.food.pos.y < 12 := by
  induction h with
  | new rng => exact Food.new_mem rng
  | tick s key fresh hr ih =>
    unfold State.tick
    cases hm : s.mode with
    | Playing =>
      dsimp only
      rcases State.play_food s key with hf | hf <;> rw [hf]
      · exact ih
      · exact Food.respawn_mem _
    | Dead =>
      dsimp only
      unfold State.dead
      cases key with
      | none => exact ih
      | some k =>
        cases k <;> first
          | exact ih
          | exact Food.new_mem fresh

/-- Concrete instance of claim C7 at the initial state over `rng0`. -/
theorem spec_c7_witness :
    0 ≤ (State.new rng0).food.pos.x ∧ (State.new rng0).food.pos.x < 12 ∧
      0 ≤ (State.new rng0).food.pos.y ∧ (State.new rng0).food.pos.y < 12 :=
  spec_c7 (State.new rng0) (Reachable.new rng0)
